import Mathlib

/-!
# pod_watcher: the cluster client adapter (`pkg/k8s/client.go`)

A shallow embedding of the adapter: the three pass-through operations
(`GetPods`, `DeletePod`, `NewSharedInformerFactory`) and the construction path
(`newClientSet`, `NewClient`).

Everything the adapter calls but does not define (the configuration builders,
the handle constructor, the pods API) is a *substitute*: a record of functions
over an external state.  Every call to a substitute is appended to a call log,
so that "exactly one call, with exactly these arguments" is a statement about
the log.  Go's `(value, error)` results are pairs of options (`none` is `nil`),
and a nil dereference is a run-time panic.
-/

namespace PodWatcher

/-!
## Paths: `filepath.Join` on a slash-separated platform

`newClientSet` computes its default path with `filepath.Join` of the Go standard library.
The library is not part of the repository; it is written down here after its documented
rules.  `Join` ignores leading empty elements, joins the rest with the separator and cleans
the result.  `Clean` replaces multiple separators by one, drops every `.` element, drops
every inner `..` element together with the element before it, drops the `..` elements that
begin a rooted path, and turns the empty result into `.`.  The library's loop reads bytes;
the one below reads the elements between separators, which are what that loop tells apart.
-/

/-- Cut a path at every separator; the elements between them may be empty. -/
def splitSep : List Char → List (List Char)
  | [] => [[]]
  | c :: cs =>
    if c = '/' then [] :: splitSep cs
    else
      match splitSep cs with
      | [] => [[c]]
      | s :: ss => (c :: s) :: ss

/-- One round of the loop of `filepath.Clean`, on the path element `e`; `out`
holds the elements written so far, the last one first. -/
def cleanStep (rooted : Bool) (out : List (List Char)) (e : List Char) : List (List Char) :=
  if e = [] then out                       -- empty path element
  else if e = ['.'] then out               -- . element
  else if e = ['.', '.'] then              -- .. element
    match out with
    | top :: rest =>
      if top = ['.', '.'] then
        (if rooted then out else e :: out)  -- nothing to backtrack over
      else rest                             -- can backtrack
    | [] => if rooted then out else [e]
  else e :: out                            -- real path element

/-- The buffer holding the elements of `out` (last one first), a separator between each two. -/
def writeOut : List (List Char) → List Char
  | [] => []
  | [e] => e
  | e :: rest => writeOut rest ++ '/' :: e

/-- The buffer of `filepath.Clean` at the end of its loop: the leading separator of a rooted
path, then the elements kept. -/
def renderPath (rooted : Bool) (out : List (List Char)) : List Char :=
  (if rooted then ['/'] else []) ++ writeOut out

/-- The function `filepath.Clean`: the shortest path equivalent to `path` by purely lexical
processing. -/
def Clean (path : String) : String :=
  if path = "" then "."
  else
    let rooted := path.data.head? = some '/'
    let out := (splitSep path.data).foldl (cleanStep rooted) []
    let buf := renderPath rooted out
    if buf = [] then "." else String.mk buf

/-- Go's `strings.Join(elems, "/")`. -/
def joinSep : List String → String
  | [] => ""
  | [e] => e
  | e :: rest => e ++ "/" ++ joinSep rest

/-- The function `filepath.Join`: leading empty elements are ignored, the rest is joined with
separators and cleaned; with no non-empty element the result is empty. -/
def Join : List String → String
  | [] => ""
  | e :: rest => if e ≠ "" then Clean (joinSep (e :: rest)) else Join rest

/-! ## Values the adapter handles -/

/-- The types of the client libraries that the adapter only stores and passes along; it never
looks inside a value of any of them.  `emptyDeleteOptions` is the literal
`metav1.DeleteOptions{}`. -/
structure ExternalTypes where
  Logger : Type
  Config : Type
  Clientset : Type
  ListOptions : Type
  DeleteOptions : Type
  PodList : Type
  Error : Type
  emptyDeleteOptions : DeleteOptions

/-- The part of `metav1.ObjectMeta` the adapter reads. -/
structure ObjectMeta where
  Name : String
  Namespace : String
  deriving DecidableEq, Repr

/-- The part of `apiv1.Pod` the adapter reads. -/
structure Pod where
  ObjectMeta : ObjectMeta
  deriving DecidableEq, Repr

/-- A `context.Context`; the adapter only ever makes the background one. -/
inductive Context where
  | Background
  | TODO
  deriving DecidableEq, Repr

/-- The struct `Client`; a pointer field is `none` when nil. -/
structure Client (T : ExternalTypes) where
  logger : Option T.Logger
  clientSet : Option T.Clientset

/-- Modelled from the spec: the informer library is not among the sources; a factory is
recorded by what it was built on: the client it lists and watches through, the resync
interval (nanoseconds; zero is no periodic resync) and the namespace it is scoped to. -/
structure SharedInformerFactory (T : ExternalTypes) where
  client : Option T.Clientset
  defaultResync : Int
  nspace : String

/-- An option of the informer library: a change applied to the factory being built. -/
def SharedInformerOption (T : ExternalTypes) : Type :=
  SharedInformerFactory T → SharedInformerFactory T

/-- Modelled from the spec: `informers.WithNamespace` scopes the factory to one namespace. -/
def WithNamespace {T : ExternalTypes} (ns : String) : SharedInformerOption T :=
  fun factory => { factory with nspace := ns }

/-- Modelled from the spec: `informers.NewSharedInformerFactoryWithOptions` starts from a
factory over all namespaces and applies the options in order. -/
def NewSharedInformerFactoryWithOptions {T : ExternalTypes} (client : Option T.Clientset)
    (defaultResync : Int) (options : List (SharedInformerOption T)) : SharedInformerFactory T :=
  options.foldl (fun factory opt => opt factory)
    { client := client, defaultResync := defaultResync, nspace := "" }

/-! ## The world outside the adapter -/

/-- A call made to the client libraries, with its arguments. -/
inductive Call (T : ExternalTypes) where
  | BuildConfigFromFlags (masterUrl kubeconfigPath : String)
  | InClusterConfig
  | NewForConfig (config : Option T.Config)
  | PodsList (clientSet : T.Clientset) (ns : String) (ctx : Context) (opts : T.ListOptions)
  | PodsDelete (clientSet : T.Clientset) (ns : String) (ctx : Context) (name : String)
      (opts : T.DeleteOptions)

/-- A substitute for the client libraries and the cluster behind them: each function answers
from the external state `σ` (files, cluster) and may change it. -/
structure Substitute (T : ExternalTypes) (σ : Type) where
  BuildConfigFromFlags : String → String → σ → (Option T.Config × Option T.Error) × σ
  InClusterConfig : σ → (Option T.Config × Option T.Error) × σ
  NewForConfig : Option T.Config → σ → (Option T.Clientset × Option T.Error) × σ
  PodsList : T.Clientset → String → Context → T.ListOptions → σ →
    (Option T.PodList × Option T.Error) × σ
  PodsDelete : T.Clientset → String → Context → String → T.DeleteOptions → σ →
    Option T.Error × σ

/-- The state of a run: the process environment (a variable that is not set is `none`), the
`Client` structs allocated so far (a `*Client` is an index into `heap`, or `none` for nil),
the external state, and the log of calls made to the libraries, oldest first. -/
structure World (T : ExternalTypes) (σ : Type) where
  env : String → Option String
  heap : List (Client T)
  ext : σ
  calls : List (Call T)

/-- A run-time panic. -/
inductive RuntimeError where
  | nilDereference
  deriving DecidableEq, Repr

/-- How a computation ends: it returns, or the goroutine panics. -/
inductive Outcome (α : Type) where
  | ret (a : α)
  | panicked (e : RuntimeError)
  deriving DecidableEq, Repr

/-- A computation of the program: from a world to an outcome and the world it leaves. -/
def Go (T : ExternalTypes) (σ : Type) (α : Type) : Type :=
  World T σ → Outcome α × World T σ

namespace Go

variable {T : ExternalTypes} {σ α β : Type}

/-- Return a value, touching nothing. -/
def pure (a : α) : Go T σ α := fun w => (Outcome.ret a, w)

/-- Sequencing: a panic ends the computation where it happened. -/
def bind (m : Go T σ α) (f : α → Go T σ β) : Go T σ β := fun w =>
  match m w with
  | (Outcome.ret a, w1) => f a w1
  | (Outcome.panicked e, w1) => (Outcome.panicked e, w1)

instance : Monad (Go T σ) where
  pure := Go.pure
  bind := Go.bind

/-- Stop with a run-time panic. -/
def throw (e : RuntimeError) : Go T σ α := fun w => (Outcome.panicked e, w)

/-- Append a call to the log. -/
def record (c : Call T) : Go T σ Unit := fun w =>
  (Outcome.ret (), { w with calls := w.calls ++ [c] })

/-- Let the substitute answer from the external state. -/
def ask (f : σ → α × σ) : Go T σ α := fun w =>
  ((Outcome.ret (f w.ext).1), { w with ext := (f w.ext).2 })

/-- Follow a pointer to a value the adapter only reads; nil panics. -/
def load (p : Option α) : Go T σ α :=
  match p with
  | some a => Go.pure a
  | none => Go.throw RuntimeError.nilDereference

/-- Follow a `*Client`; nil panics (and so does an address that was never allocated). -/
def deref (p : Option Nat) : Go T σ (Client T) := fun w =>
  match p with
  | none => (Outcome.panicked RuntimeError.nilDereference, w)
  | some a =>
    match w.heap[a]? with
    | some c => (Outcome.ret c, w)
    | none => (Outcome.panicked RuntimeError.nilDereference, w)

/-- The expression `&Client{...}`: a fresh struct, and the pointer to it. -/
def alloc (c : Client T) : Go T σ (Option Nat) := fun w =>
  (Outcome.ret (some w.heap.length), { w with heap := w.heap ++ [c] })

end Go

/-- Go's `os.Getenv`: the value of the variable, empty when it is not set. -/
def Getenv {T : ExternalTypes} {σ : Type} (key : String) : Go T σ String := fun w =>
  (Outcome.ret ((w.env key).getD ""), w)

/-! ## The library calls, answered by a substitute -/

section Program

variable {T : ExternalTypes} {σ : Type} (up : Substitute T σ)

/-- The call `clientcmd.BuildConfigFromFlags(masterUrl, kubeconfigPath)`. -/
def clientcmd.BuildConfigFromFlags (masterUrl kubeconfigPath : String) :
    Go T σ (Option T.Config × Option T.Error) := do
  Go.record (Call.BuildConfigFromFlags masterUrl kubeconfigPath)
  Go.ask (up.BuildConfigFromFlags masterUrl kubeconfigPath)

/-- The call `rest.InClusterConfig()`. -/
def rest.InClusterConfig : Go T σ (Option T.Config × Option T.Error) := do
  Go.record Call.InClusterConfig
  Go.ask up.InClusterConfig

/-- The call `kubernetes.NewForConfig(config)`. -/
def kubernetes.NewForConfig (config : Option T.Config) :
    Go T σ (Option T.Clientset × Option T.Error) := do
  Go.record (Call.NewForConfig config)
  Go.ask (up.NewForConfig config)

/-- The handle `clientSet.CoreV1().Pods(ns)`: the pods of one namespace, through one
connection handle. -/
structure PodInterface (T : ExternalTypes) where
  clientSet : T.Clientset
  ns : String

/-- The method `(*Clientset).CoreV1`: reads a field of the clientset, so a nil one panics. -/
def CoreV1 (clientSet : Option T.Clientset) : Go T σ T.Clientset :=
  Go.load clientSet

/-- The method `Pods(namespace)` of the core client. -/
def Pods (core : T.Clientset) (ns : String) : PodInterface T :=
  { clientSet := core, ns := ns }

/-- The call `Pods(ns).List(ctx, opts)`. -/
def PodInterface.List (pods : PodInterface T) (ctx : Context) (opts : T.ListOptions) :
    Go T σ (Option T.PodList × Option T.Error) := do
  Go.record (Call.PodsList pods.clientSet pods.ns ctx opts)
  Go.ask (up.PodsList pods.clientSet pods.ns ctx opts)

/-- The call `Pods(ns).Delete(ctx, name, opts)`. -/
def PodInterface.Delete (pods : PodInterface T) (ctx : Context) (name : String)
    (opts : T.DeleteOptions) : Go T σ (Option T.Error) := do
  Go.record (Call.PodsDelete pods.clientSet pods.ns ctx name opts)
  Go.ask (up.PodsDelete pods.clientSet pods.ns ctx name opts)

/-! ## The adapter (`pkg/k8s/client.go`) -/

/-- The method `(c *Client) GetPods(namespace, options)`. -/
def Client.GetPods (c : Option Nat) (nspace : String) (options : T.ListOptions) :
    Go T σ (Option T.PodList × Option T.Error) := do
  let ctx := Context.Background
  let self ← Go.deref c
  let core ← CoreV1 self.clientSet
  (Pods core nspace).List up ctx options

/-- The method `(c *Client) DeletePod(pod)`. -/
def Client.DeletePod (c : Option Nat) (pod : Option Pod) : Go T σ (Option T.Error) := do
  let ctx := Context.Background
  let self ← Go.deref c
  let core ← CoreV1 self.clientSet
  let pods := Pods core (← Go.load pod).ObjectMeta.Namespace
  pods.Delete up ctx (← Go.load pod).ObjectMeta.Name T.emptyDeleteOptions

/-- The method `(c *Client) NewSharedInformerFactory(ns)`. -/
def Client.NewSharedInformerFactory (c : Option Nat) (ns : String) :
    Go T σ (Option (SharedInformerFactory T) × Option T.Error) := do
  let self ← Go.deref c
  let factory := NewSharedInformerFactoryWithOptions self.clientSet 0 [WithNamespace ns]
  return (some factory, none)

/-- The function `newClientSet()`. -/
def newClientSet : Go T σ (Option T.Clientset × Option T.Error) := do
  let mut err : Option T.Error := none
  let mut config : Option T.Config := none
  if (← Getenv "KUBERNETES_SERVICE_HOST") = "" then
    let mut kubeconfig ← Getenv "KUBECONFIG"
    if kubeconfig = "" then
      kubeconfig := Join [← Getenv "HOME", ".kube", "config"]
    (config, err) ← clientcmd.BuildConfigFromFlags up "" kubeconfig
  else
    -- Reads config when in cluster
    (config, err) ← rest.InClusterConfig up
  if err.isSome then
    return (none, err)
  kubernetes.NewForConfig up config

/-- The function `NewClient(logger)`. -/
def NewClient (logger : Option T.Logger) : Go T σ (Option Nat × Option T.Error) := do
  let (clientSet, err) ← newClientSet up
  if err.isSome then
    return (none, err)
  let c ← Go.alloc { clientSet := clientSet, logger := logger }
  return (c, err)

end Program

/-! ## Vocabulary for the statements -/

section Vocabulary

variable {T : ExternalTypes} {σ : Type} (up : Substitute T σ)

/-- What the program sees of a variable: its value, the empty string when it is not set. -/
def envValue (env : String → Option String) (key : String) : String :=
  (env key).getD ""

/-- Go's `os.Setenv`. -/
def World.setenv (w : World T σ) (key value : String) : World T σ :=
  { w with env := Function.update w.env key (some value) }

/-- Go's `os.Unsetenv`. -/
def World.unsetenv (w : World T σ) (key : String) : World T σ :=
  { w with env := Function.update w.env key none }

/-- The kubeconfig path `newClientSet` computes (its lines 47 to 50), as a function of the
environment. -/
def resolvedKubeconfig (env : String → Option String) : String :=
  if envValue env "KUBECONFIG" = "" then Join [envValue env "HOME", ".kube", "config"]
  else envValue env "KUBECONFIG"

/-- The kubeconfig path in the words of the specification: the value of the override variable
when it is set, else the file `.kube/config` right under the value of `HOME`. -/
def statedKubeconfig (env : String → Option String) : String :=
  match env "KUBECONFIG" with
  | some v => v
  | none => envValue env "HOME" ++ "/.kube/config"

/-- Whether a logged call is one of the two configuration builders. -/
def Call.isConfigBuilder : Call T → Bool
  | Call.BuildConfigFromFlags _ _ => true
  | Call.InClusterConfig => true
  | _ => false

/-- The configuration-builder calls that one run of `newClientSet` adds to the log. -/
def builderCalls (w : World T σ) : List (Call T) :=
  ((newClientSet up w).2.calls.drop w.calls.length).filter Call.isConfigBuilder

/-- One configuration-builder call and what the substitute answered. -/
structure ConfigStep (T : ExternalTypes) (σ : Type) where
  call : Call T
  config : Option T.Config
  err : Option T.Error
  ext : σ

/-- The builder that answers for the environment of `w`: the kubeconfig one on the resolved
path when the marker variable reads as empty, in-cluster discovery when it does not. -/
def selectedBuilder (w : World T σ) : ConfigStep T σ :=
  if envValue w.env "KUBERNETES_SERVICE_HOST" = "" then
    { call := Call.BuildConfigFromFlags "" (resolvedKubeconfig w.env)
      config := (up.BuildConfigFromFlags "" (resolvedKubeconfig w.env) w.ext).1.1
      err := (up.BuildConfigFromFlags "" (resolvedKubeconfig w.env) w.ext).1.2
      ext := (up.BuildConfigFromFlags "" (resolvedKubeconfig w.env) w.ext).2 }
  else
    { call := Call.InClusterConfig
      config := (up.InClusterConfig w.ext).1.1
      err := (up.InClusterConfig w.ext).1.2
      ext := (up.InClusterConfig w.ext).2 }

/-- The answer of the handle constructor to the configuration the selected builder gave. -/
def handleStep (w : World T σ) : (Option T.Clientset × Option T.Error) × σ :=
  up.NewForConfig (selectedBuilder up w).config (selectedBuilder up w).ext

/-- Mode selection in the words of the specification: the kubeconfig builder when the marker
variable is absent, in-cluster discovery otherwise, one builder call either way. -/
def StatedModeSelection (w : World T σ) : Prop :=
  (w.env "KUBERNETES_SERVICE_HOST" = none →
    builderCalls up w = [Call.BuildConfigFromFlags "" (resolvedKubeconfig w.env)]) ∧
  (w.env "KUBERNETES_SERVICE_HOST" ≠ none → builderCalls up w = [Call.InClusterConfig])

/-- Path resolution in the words of the specification: with the marker variable absent, the
builder is handed the stated path. -/
def StatedPathResolution (w : World T σ) : Prop :=
  w.env "KUBERNETES_SERVICE_HOST" = none →
    builderCalls up w = [Call.BuildConfigFromFlags "" (statedKubeconfig w.env)]

/-- Construction success in the words of the specification: with the marker variable unset and
the configuration builder succeeding on the resolved path, `NewClient` returns no error and
a pointer to a `Client` holding the handle built from that configuration and the logger. -/
def StatedConstructionSuccess (logger : Option T.Logger) (w : World T σ) : Prop :=
  w.env "KUBERNETES_SERVICE_HOST" = none →
  (up.BuildConfigFromFlags "" (resolvedKubeconfig w.env) w.ext).1.2 = none →
    ∃ a c, (NewClient up logger w).1 = Outcome.ret (some a, none) ∧
      (NewClient up logger w).2.heap[a]? = some c ∧
      c.clientSet = (handleStep up w).1.1 ∧ c.logger = logger

/-- Delete delegation in the words of the specification: for every pod reference, a nil one
included, `DeletePod` on the adapter `c` holding the handle `cs` makes exactly one call, a
delete call with the empty delete options, addressed to the namespace and name of the pod,
and returns what the substitute answered to it. -/
def StatedDeleteDelegation (c : Option Nat) (cs : T.Clientset) (pod : Option Pod)
    (w : World T σ) : Prop :=
  ∃ ns name,
    Client.DeletePod up c pod w =
      (Outcome.ret (up.PodsDelete cs ns Context.Background name T.emptyDeleteOptions w.ext).1,
        { w with
          ext := (up.PodsDelete cs ns Context.Background name T.emptyDeleteOptions w.ext).2
          calls := w.calls ++
            [Call.PodsDelete cs ns Context.Background name T.emptyDeleteOptions] }) ∧
    ∀ p, pod = some p → ns = p.ObjectMeta.Namespace ∧ name = p.ObjectMeta.Name

/-- A call of one of the three operations of the adapter, with its receiver. -/
inductive AdapterCall (T : ExternalTypes) where
  | GetPods (c : Option Nat) (nspace : String) (options : T.ListOptions)
  | DeletePod (c : Option Nat) (pod : Option Pod)
  | NewSharedInformerFactory (c : Option Nat) (ns : String)

/-- What a call of one of the three operations returned. -/
inductive AdapterResult (T : ExternalTypes) where
  | pods (r : Option T.PodList × Option T.Error)
  | deleted (err : Option T.Error)
  | factory (r : Option (SharedInformerFactory T) × Option T.Error)

/-- Make the call. -/
def AdapterCall.run : AdapterCall T → Go T σ (AdapterResult T)
  | AdapterCall.GetPods c nspace options => do
    return AdapterResult.pods (← Client.GetPods up c nspace options)
  | AdapterCall.DeletePod c pod => do
    return AdapterResult.deleted (← Client.DeletePod up c pod)
  | AdapterCall.NewSharedInformerFactory c ns => do
    return AdapterResult.factory (← Client.NewSharedInformerFactory c ns)

/-- The world after a sequence of calls, each made whatever the one before came to. -/
def runCalls : List (AdapterCall T) → World T σ → World T σ
  | [], w => w
  | op :: rest, w => runCalls rest (op.run up w).2

end Vocabulary

/-! ## A concrete substitute, for the examples -/

/-- Library types for the examples: a configuration is the server address it names, a
clientset the server address it talks to, list options a label selector, delete options a
grace period; loggers and errors are strings. -/
@[reducible] def demoTypes : ExternalTypes where
  Logger := String
  Config := String
  Clientset := String
  ListOptions := String
  DeleteOptions := Option Nat
  PodList := List Pod
  Error := String
  emptyDeleteOptions := none

/-- The external state of the examples: the kubeconfig files there are (path and the server
address written in the file) and the pods in the cluster. -/
structure DemoState where
  files : List (String × String)
  pods : List Pod
  deriving DecidableEq, Repr

/-- A substitute that reads kubeconfig files from the state, finds no in-cluster credentials,
refuses to build a handle for an empty server address, lists the pods of a namespace and
deletes a pod by namespace and name. -/
def demoSubstitute : Substitute demoTypes DemoState where
  BuildConfigFromFlags := fun _ (path : String) st =>
    match st.files.lookup path with
    | some server => ((some server, none), st)
    | none => ((none, some ("no such file: " ++ path)), st)
  InClusterConfig := fun st =>
    ((none, some "unable to load in-cluster configuration"), st)
  NewForConfig := fun (config : Option String) st =>
    match config with
    | some server =>
      if server = "" then ((none, some "host must be a URL or a host:port pair"), st)
      else ((some server, none), st)
    | none => ((none, some "no configuration"), st)
  PodsList := fun _ (ns : String) _ _ st =>
    ((some (st.pods.filter (fun p => p.ObjectMeta.Namespace = ns)), none), st)
  PodsDelete := fun _ (ns : String) _ (name : String) _ st =>
    let hit : Pod → Bool := fun p => p.ObjectMeta.Namespace = ns && p.ObjectMeta.Name = name
    if st.pods.any hit then (none, { st with pods := st.pods.filter (fun p => !hit p) })
    else (some ("pod not found: " ++ name), st)

/-- A world before construction: nothing allocated, nothing logged. -/
def freshWorld (env : String → Option String) (st : DemoState) : World demoTypes DemoState :=
  { env := env, heap := [], ext := st, calls := [] }

/-- Two pods in two namespaces. -/
def demoPods : List Pod :=
  [{ ObjectMeta := { Name := "web-0", Namespace := "prod" } },
   { ObjectMeta := { Name := "job-7", Namespace := "batch" } }]

/-- A machine with a kubeconfig file at the default place of user `u`. -/
def demoMachine : DemoState :=
  { files := [("/home/u/.kube/config", "https://10.0.0.1:6443")], pods := demoPods }

/-- A machine with no kubeconfig file at all. -/
def bareMachine : DemoState :=
  { files := [], pods := demoPods }

/-- A machine whose kubeconfig file names no server. -/
def brokenMachine : DemoState :=
  { files := [("/home/u/.kube/config", "")], pods := demoPods }

/-- Only `HOME` is set. -/
def homeEnv (home : String) : String → Option String :=
  fun key => if key = "HOME" then some home else none

/-- The variable `HOME` is set and the marker variable is set to the empty string. -/
def emptyMarkerEnv : String → Option String :=
  fun key =>
    if key = "HOME" then some "/home/u"
    else if key = "KUBERNETES_SERVICE_HOST" then some ""
    else none

/-- The variable `HOME` is set and the override variable is set to the empty string. -/
def emptyOverrideEnv : String → Option String :=
  fun key =>
    if key = "HOME" then some "/home/u"
    else if key = "KUBECONFIG" then some ""
    else none

/-- A world with one adapter, at address 0, connected to the demo cluster. -/
def liveWorld : World demoTypes DemoState :=
  { env := homeEnv "/home/u"
    heap := [{ logger := some "zap", clientSet := some "https://10.0.0.1:6443" }]
    ext := demoMachine
    calls := [] }

/-! ## Lemmas on paths -/

/-- The model of `Clean` on rows of the library's own test table. -/
theorem Clean_examples :
    Clean "" = "." ∧ Clean "/" = "/" ∧ Clean "abc/def" = "abc/def" ∧ Clean "abc/" = "abc" ∧
    Clean "abc//def//ghi" = "abc/def/ghi" ∧ Clean "/./abc/def" = "/abc/def" ∧
    Clean "abc/def/../ghi/../jkl" = "abc/jkl" ∧ Clean "abc/def/../.." = "." ∧
    Clean "/abc/def/../../.." = "/" ∧ Clean "abc/def/../../.." = ".." ∧
    Clean "abc/def/../../../ghi/jkl/../../../mno" = "../../mno" ∧ Clean "/../abc" = "/abc" ∧
    Clean "abc/../../././../def" = "../../def" := by
  decide

/-- The model of `Join` on rows of the library's own test table. -/
theorem Join_examples :
    Join [] = "" ∧ Join [""] = "" ∧ Join ["a"] = "a" ∧ Join ["a", ""] = "a" ∧
    Join ["", "a"] = "a" ∧ Join ["a", "b"] = "a/b" ∧ Join ["/", "a"] = "/a" ∧
    Join ["/", ""] = "/" ∧ Join ["a/", "b"] = "a/b" ∧ Join ["a/", ""] = "a" ∧
    Join ["", ""] = "" := by
  decide

theorem splitSep_ne_nil (l : List Char) : splitSep l ≠ [] := by
  cases l with
  | nil => simp [splitSep]
  | cons c cs =>
    unfold splitSep
    split_ifs
    · simp
    · split <;> simp

theorem splitSep_append_sep (a b : List Char) :
    splitSep (a ++ '/' :: b) = splitSep a ++ splitSep b := by
  induction a with
  | nil => simp [splitSep]
  | cons c cs ih =>
    by_cases hc : c = '/'
    · simp [splitSep, hc, ih]
    · have hne := splitSep_ne_nil cs
      cases hs : splitSep cs with
      | nil => exact absurd hs hne
      | cons s ss => simp [splitSep, hc, ih, hs]

theorem writeOut_cons_cons (e f : List Char) (rest : List (List Char)) :
    writeOut (e :: f :: rest) = writeOut (f :: rest) ++ '/' :: e := by
  simp [writeOut]

/-- Every element kept by the loop of `Clean` is non-empty. -/
theorem cleanStep_nonempty (rooted : Bool) (out : List (List Char)) (e : List Char)
    (h : ∀ x ∈ out, x ≠ []) : ∀ x ∈ cleanStep rooted out e, x ≠ [] := by
  have hcons : e ≠ [] → ∀ x ∈ e :: out, x ≠ [] := by
    intro he x hx
    rcases List.mem_cons.1 hx with rfl | hx
    · exact he
    · exact h x hx
  unfold cleanStep
  by_cases h1 : e = []
  · simpa [h1] using h
  by_cases h2 : e = ['.']
  · simpa [h1, h2] using h
  by_cases h3 : e = ['.', '.']
  · rw [if_neg h1, if_neg h2, if_pos h3]
    cases out with
    | nil => cases rooted <;> simp [h3]
    | cons top rest =>
      by_cases ht : top = ['.', '.']
      · cases rooted
        · simpa [ht] using hcons h1
        · simpa [ht] using h
      · simp only [ht, if_false]
        intro x hx
        exact h x (List.mem_cons_of_mem _ hx)
  · rw [if_neg h1, if_neg h2, if_neg h3]
    exact hcons h1

theorem foldl_cleanStep_nonempty (rooted : Bool) (es : List (List Char)) (out : List (List Char))
    (h : ∀ x ∈ out, x ≠ []) : ∀ x ∈ es.foldl (cleanStep rooted) out, x ≠ [] := by
  induction es generalizing out with
  | nil => simpa using h
  | cons e es ih => exact ih _ (cleanStep_nonempty rooted out e h)

theorem writeOut_ne_nil (out : List (List Char)) (hne : out ≠ [])
    (h : ∀ x ∈ out, x ≠ []) : writeOut out ≠ [] := by
  match out, hne, h with
  | [e], _, h => simpa [writeOut] using h e (by simp)
  | e :: f :: rest, _, _ => simp [writeOut]


theorem joinSep_home_data (home : String) :
    (joinSep [home, ".kube", "config"]).data = home.data ++ '/' :: ".kube/config".data := by
  simp [joinSep, String.data_append]

theorem foldl_cleanStep_kube (rooted : Bool) (es : List (List Char)) :
    (es ++ splitSep ".kube/config".data).foldl (cleanStep rooted) [] =
      "config".data :: ".kube".data :: es.foldl (cleanStep rooted) [] := by
  have hs : splitSep ".kube/config".data = [".kube".data, "config".data] := by decide
  rw [hs, List.foldl_append]
  simp [cleanStep]

theorem Clean_of_ne (path : String) (hne : path ≠ "") :
    Clean path =
      if renderPath (path.data.head? = some '/')
          ((splitSep path.data).foldl (cleanStep (path.data.head? = some '/')) []) = [] then "."
      else String.mk (renderPath (path.data.head? = some '/')
          ((splitSep path.data).foldl (cleanStep (path.data.head? = some '/')) [])) := by
  simp [Clean, hne]

theorem Join_home_kube_config (home : String) (hne : home ≠ "")
    (hroot : Clean home ≠ "/") (hdot : Clean home ≠ ".") :
    Join [home, ".kube", "config"] = Clean home ++ "/.kube/config" := by
  have hd : home.data ≠ [] := fun h => hne (String.ext h)
  have hj : joinSep [home, ".kube", "config"] ≠ "" := by
    intro h
    have := congrArg String.data h
    rw [joinSep_home_data] at this
    simp at this
  have hhead : (joinSep [home, ".kube", "config"]).data.head? = home.data.head? := by
    rw [joinSep_home_data]
    cases hh : home.data with
    | nil => exact absurd hh hd
    | cons c cs => simp
  rw [Clean_of_ne _ hne] at hroot hdot
  unfold Join
  rw [if_pos hne, Clean_of_ne _ hj, Clean_of_ne _ hne, hhead, joinSep_home_data,
    splitSep_append_sep, foldl_cleanStep_kube]
  have hall := foldl_cleanStep_nonempty (decide (home.data.head? = some '/'))
    (splitSep home.data) [] (by simp)
  generalize (splitSep home.data).foldl (cleanStep (decide (home.data.head? = some '/'))) []
    = out at hroot hdot hall ⊢
  generalize decide (home.data.head? = some '/') = rooted at hroot hdot ⊢
  cases out with
  | nil =>
    cases rooted
    · exact absurd (by simp [renderPath, writeOut]) hdot
    · exact absurd (by simp [renderPath, writeOut]) hroot
  | cons e rest =>
    have hw : writeOut (e :: rest) ≠ [] := writeOut_ne_nil _ (by simp) hall
    have hr : renderPath rooted (e :: rest) ≠ [] := by
      simp [renderPath, hw]
    have hr2 : renderPath rooted ("config".data :: ".kube".data :: e :: rest) =
        renderPath rooted (e :: rest) ++ "/.kube/config".data := by
      simp [renderPath, writeOut_cons_cons]
    rw [if_neg hr, hr2, if_neg (by simp [hr])]
    apply String.ext
    simp [String.data_append]


/-! ## Lemmas on the construction path -/

section ConstructionLemmas

variable {T : ExternalTypes} {σ : Type} (up : Substitute T σ)

/-- The whole of `newClientSet`: one builder call, then the handle constructor unless the
builder returned an error. -/
theorem newClientSet_eq (w : World T σ) :
    newClientSet up w =
      if (selectedBuilder up w).err.isSome then
        (Outcome.ret (none, (selectedBuilder up w).err),
          { w with
            ext := (selectedBuilder up w).ext
            calls := w.calls ++ [(selectedBuilder up w).call] })
      else
        (Outcome.ret (handleStep up w).1,
          { w with
            ext := (handleStep up w).2
            calls := w.calls ++
              [(selectedBuilder up w).call, Call.NewForConfig (selectedBuilder up w).config] }) := by
  unfold handleStep selectedBuilder resolvedKubeconfig envValue newClientSet
  simp only [bind, pure, clientcmd.BuildConfigFromFlags, rest.InClusterConfig,
    kubernetes.NewForConfig]
  by_cases h1 : (w.env "KUBERNETES_SERVICE_HOST").getD "" = ""
  · by_cases h2 : (w.env "KUBECONFIG").getD "" = ""
    · by_cases h3 : (up.BuildConfigFromFlags ""
          (Join [(w.env "HOME").getD "", ".kube", "config"]) w.ext).1.2.isSome = true
      · simp [Go.bind, Go.pure, Getenv, Go.record, Go.ask, h1, h2, h3]
      · simp [Go.bind, Go.pure, Getenv, Go.record, Go.ask, h1, h2, h3]
    · by_cases h3 : (up.BuildConfigFromFlags "" ((w.env "KUBECONFIG").getD "") w.ext).1.2.isSome
          = true
      · simp [Go.bind, Go.pure, Getenv, Go.record, Go.ask, h1, h2, h3]
      · simp [Go.bind, Go.pure, Getenv, Go.record, Go.ask, h1, h2, h3]
  · by_cases h3 : (up.InClusterConfig w.ext).1.2.isSome = true
    · simp [Go.bind, Go.pure, Getenv, Go.record, Go.ask, h1, h3]
    · simp [Go.bind, Go.pure, Getenv, Go.record, Go.ask, h1, h3]

/-- The selected builder is one of the two configuration builders. -/
theorem selectedBuilder_isConfigBuilder (w : World T σ) :
    (selectedBuilder up w).call.isConfigBuilder = true := by
  unfold selectedBuilder
  split_ifs <;> rfl

/-- One run of `newClientSet` logs exactly one configuration-builder call: the selected one. -/
theorem builderCalls_eq (w : World T σ) :
    builderCalls up w = [(selectedBuilder up w).call] := by
  have hn : ∀ c : Option T.Config, (Call.NewForConfig c : Call T).isConfigBuilder = false :=
    fun _ => rfl
  unfold builderCalls
  rw [newClientSet_eq]
  split_ifs <;>
    simp [List.drop_append_of_le_length, List.filter_cons, selectedBuilder_isConfigBuilder, hn]

/-- The whole of `NewClient`: the error of the builder or of the handle constructor as it is,
else a fresh `Client` holding the handle and the logger. -/
theorem NewClient_eq (logger : Option T.Logger) (w : World T σ) :
    NewClient up logger w =
      if (selectedBuilder up w).err.isSome then
        (Outcome.ret (none, (selectedBuilder up w).err),
          { w with
            ext := (selectedBuilder up w).ext
            calls := w.calls ++ [(selectedBuilder up w).call] })
      else if (handleStep up w).1.2.isSome then
        (Outcome.ret (none, (handleStep up w).1.2),
          { w with
            ext := (handleStep up w).2
            calls := w.calls ++
              [(selectedBuilder up w).call, Call.NewForConfig (selectedBuilder up w).config] })
      else
        (Outcome.ret (some w.heap.length, none),
          { w with
            heap := w.heap ++ [{ logger := logger, clientSet := (handleStep up w).1.1 }]
            ext := (handleStep up w).2
            calls := w.calls ++
              [(selectedBuilder up w).call, Call.NewForConfig (selectedBuilder up w).config] }) := by
  unfold NewClient
  simp only [bind, pure, Go.bind]
  rw [newClientSet_eq]
  by_cases h1 : (selectedBuilder up w).err.isSome = true
  · simp [h1, Go.pure]
  · by_cases h2 : (handleStep up w).1.2.isSome = true
    · simp [h1, h2, Go.pure]
    · simp [h1, h2, Go.pure, Go.bind, Go.alloc]
      simpa using h2

end ConstructionLemmas

/-- A cleaned path is never empty. -/
theorem Clean_ne_empty (path : String) : Clean path ≠ "" := by
  by_cases h1 : path = ""
  · rw [h1]
    decide
  · rw [Clean_of_ne path h1]
    split_ifs with h2
    · decide
    · intro h
      exact h2 (congrArg String.data h)

/-- The path `newClientSet` resolves is never empty. -/
theorem resolvedKubeconfig_ne_empty (env : String → Option String) :
    resolvedKubeconfig env ≠ "" := by
  unfold resolvedKubeconfig
  split_ifs with h
  · unfold Join
    split_ifs
    · exact Clean_ne_empty _
    · decide
  · exact h

/-! ## Construction: which builder, on which path -/

section Construction

variable {T : ExternalTypes} {σ : Type} (up : Substitute T σ)

/-- Claim C1, as stated, fails: with the marker variable present but set to the empty string
the specification's "otherwise" asks for in-cluster discovery, while the code calls the
kubeconfig builder and never consults in-cluster discovery. -/
theorem mode_selection_counterexample :
    ¬ StatedModeSelection demoSubstitute (freshWorld emptyMarkerEnv demoMachine) := by
  intro h
  have h2 := h.2 (by decide)
  have h3 : builderCalls demoSubstitute (freshWorld emptyMarkerEnv demoMachine) =
      [Call.BuildConfigFromFlags "" "/home/u/.kube/config"] := rfl
  rw [h3] at h2
  simp at h2

/-- Claim C1, amended: in every world one run of `newClientSet` calls exactly one
configuration builder; it is `clientcmd.BuildConfigFromFlags` with an empty master URL and the
resolved (never empty) kubeconfig path when `KUBERNETES_SERVICE_HOST` is absent or set to the
empty string, and `rest.InClusterConfig` when it has a non-empty value. -/
theorem newClientSet_mode_selection (w : World T σ) :
    builderCalls up w =
        [if envValue w.env "KUBERNETES_SERVICE_HOST" = "" then
            Call.BuildConfigFromFlags "" (resolvedKubeconfig w.env)
          else Call.InClusterConfig] ∧
      (builderCalls up w).length = 1 ∧
      (envValue w.env "KUBERNETES_SERVICE_HOST" = "" ↔
        (w.env "KUBERNETES_SERVICE_HOST" = none ∨ w.env "KUBERNETES_SERVICE_HOST" = some "")) ∧
      resolvedKubeconfig w.env ≠ "" := by
  refine ⟨?_, ?_, ?_, resolvedKubeconfig_ne_empty _⟩
  · rw [builderCalls_eq]
    unfold selectedBuilder
    split_ifs <;> rfl
  · rw [builderCalls_eq]
    rfl
  · unfold envValue
    cases w.env "KUBERNETES_SERVICE_HOST" <;> simp

/-- Claim C2, as stated, fails: with `HOME` ending in a separator the builder is handed the
cleaned path `/home/u/.kube/config`, not `/home/u//.kube/config`; with an empty `HOME` it is
handed the relative path `.kube/config`, not `/.kube/config`; and with `KUBECONFIG` set to
the empty string it is handed the default path, not the value of the variable. -/
theorem kubeconfig_path_counterexample :
    ¬ StatedPathResolution demoSubstitute (freshWorld (homeEnv "/home/u/") demoMachine) ∧
    ¬ StatedPathResolution demoSubstitute (freshWorld (homeEnv "") demoMachine) ∧
    ¬ StatedPathResolution demoSubstitute (freshWorld emptyOverrideEnv demoMachine) := by
  refine ⟨?_, ?_, ?_⟩
  · intro h
    have h2 := h (by decide)
    have h3 : builderCalls demoSubstitute (freshWorld (homeEnv "/home/u/") demoMachine) =
        [Call.BuildConfigFromFlags "" "/home/u/.kube/config"] := rfl
    have h4 : statedKubeconfig (freshWorld (homeEnv "/home/u/") demoMachine).env =
        "/home/u//.kube/config" := rfl
    rw [h3, h4] at h2
    simp at h2
  · intro h
    have h2 := h (by decide)
    have h3 : builderCalls demoSubstitute (freshWorld (homeEnv "") demoMachine) =
        [Call.BuildConfigFromFlags "" ".kube/config"] := rfl
    have h4 : statedKubeconfig (freshWorld (homeEnv "") demoMachine).env = "/.kube/config" := rfl
    rw [h3, h4] at h2
    simp at h2
  · intro h
    have h2 := h (by decide)
    have h3 : builderCalls demoSubstitute (freshWorld emptyOverrideEnv demoMachine) =
        [Call.BuildConfigFromFlags "" "/home/u/.kube/config"] := rfl
    have h4 : statedKubeconfig (freshWorld emptyOverrideEnv demoMachine).env = "" := rfl
    rw [h3, h4] at h2
    simp at h2

/-- Claim C2, amended: when `KUBERNETES_SERVICE_HOST` is absent or empty, the path handed to
the configuration builder is the value of `KUBECONFIG` when that value is not empty, whatever
`HOME` is; otherwise it is `filepath.Join(HOME, ".kube", "config")`, which is
`.kube/config` right under the cleaned value of `HOME` when `HOME` is not empty and its
cleaned form is neither the root nor `.` (so under `HOME` itself when `HOME` is clean),
and the relative path `.kube/config` when `HOME` is empty. -/
theorem newClientSet_kubeconfig_path (w : World T σ)
    (hmarker : envValue w.env "KUBERNETES_SERVICE_HOST" = "") :
    (envValue w.env "KUBECONFIG" ≠ "" →
      builderCalls up w = [Call.BuildConfigFromFlags "" (envValue w.env "KUBECONFIG")]) ∧
    (envValue w.env "KUBECONFIG" = "" →
      builderCalls up w =
        [Call.BuildConfigFromFlags "" (Join [envValue w.env "HOME", ".kube", "config"])]) ∧
    (envValue w.env "KUBECONFIG" = "" → envValue w.env "HOME" ≠ "" →
      Clean (envValue w.env "HOME") ≠ "/" → Clean (envValue w.env "HOME") ≠ "." →
      builderCalls up w =
        [Call.BuildConfigFromFlags "" (Clean (envValue w.env "HOME") ++ "/.kube/config")]) ∧
    (envValue w.env "KUBECONFIG" = "" → Clean (envValue w.env "HOME") = envValue w.env "HOME" →
      envValue w.env "HOME" ≠ "/" → envValue w.env "HOME" ≠ "." →
      builderCalls up w =
        [Call.BuildConfigFromFlags "" (envValue w.env "HOME" ++ "/.kube/config")]) ∧
    (envValue w.env "KUBECONFIG" = "" → envValue w.env "HOME" = "" →
      builderCalls up w = [Call.BuildConfigFromFlags "" ".kube/config"]) := by
  have hb : builderCalls up w = [Call.BuildConfigFromFlags "" (resolvedKubeconfig w.env)] := by
    rw [builderCalls_eq]
    unfold selectedBuilder
    rw [if_pos hmarker]
  have hgen : envValue w.env "KUBECONFIG" = "" → envValue w.env "HOME" ≠ "" →
      Clean (envValue w.env "HOME") ≠ "/" → Clean (envValue w.env "HOME") ≠ "." →
      builderCalls up w =
        [Call.BuildConfigFromFlags "" (Clean (envValue w.env "HOME") ++ "/.kube/config")] := by
    intro hk hne hroot hdot
    rw [hb, resolvedKubeconfig, if_pos hk, Join_home_kube_config _ hne hroot hdot]
  refine ⟨?_, ?_, hgen, ?_, ?_⟩
  · intro hk
    rw [hb, resolvedKubeconfig, if_neg hk]
  · intro hk
    rw [hb, resolvedKubeconfig, if_pos hk]
  · intro hk hclean hroot hdot
    have hne : envValue w.env "HOME" ≠ "" := by
      intro h
      rw [h] at hclean
      exact absurd hclean (by decide)
    have := hgen hk hne (by rw [hclean]; exact hroot) (by rw [hclean]; exact hdot)
    rw [hclean] at this
    exact this
  · intro hk hhome
    rw [hb, resolvedKubeconfig, if_pos hk, hhome]
    rfl

/-- A run of claim C2 (amended): `HOME` is `/home/u/` with its trailing separator, nothing
else is set, and the builder is handed `/home/u/.kube/config`. -/
theorem newClientSet_kubeconfig_path_witness :
    envValue (freshWorld (homeEnv "/home/u/") demoMachine).env "KUBERNETES_SERVICE_HOST" = "" ∧
    builderCalls demoSubstitute (freshWorld (homeEnv "/home/u/") demoMachine) =
      [Call.BuildConfigFromFlags "" "/home/u/.kube/config"] :=
  ⟨rfl, (newClientSet_kubeconfig_path demoSubstitute
    (freshWorld (homeEnv "/home/u/") demoMachine) rfl).2.2.1 rfl
      (by decide) (by decide) (by decide)⟩

/-- Claim C3: `NewClient` always returns, and it returns a non-nil error exactly when the
selected configuration builder returned one, or the builder returned none and the handle
constructor returned one.  The pointer returned with an error is nil and the error is the one
the failing step returned; after a builder error the log holds the builder call only, so
`kubernetes.NewForConfig` was not attempted, and nothing is called twice.  In particular,
with the marker variable unset and the kubeconfig builder failing on the resolved path,
`NewClient` returns that error. -/
theorem NewClient_failure (logger : Option T.Logger) (w : World T σ) :
    (∃ c err, (NewClient up logger w).1 = Outcome.ret (c, err) ∧
      (err.isSome ↔ ((selectedBuilder up w).err.isSome ∨
        ((selectedBuilder up w).err = none ∧ (handleStep up w).1.2.isSome))) ∧
      (err.isSome → c = none)) ∧
    (∀ e, (selectedBuilder up w).err = some e →
      NewClient up logger w =
        (Outcome.ret (none, some e),
          { w with
            ext := (selectedBuilder up w).ext
            calls := w.calls ++ [(selectedBuilder up w).call] })) ∧
    (∀ e, (selectedBuilder up w).err = none → (handleStep up w).1.2 = some e →
      NewClient up logger w =
        (Outcome.ret (none, some e),
          { w with
            ext := (handleStep up w).2
            calls := w.calls ++
              [(selectedBuilder up w).call, Call.NewForConfig (selectedBuilder up w).config] })) ∧
    (∀ e, w.env "KUBERNETES_SERVICE_HOST" = none →
      (up.BuildConfigFromFlags "" (resolvedKubeconfig w.env) w.ext).1.2 = some e →
      NewClient up logger w =
        (Outcome.ret (none, some e),
          { w with
            ext := (up.BuildConfigFromFlags "" (resolvedKubeconfig w.env) w.ext).2
            calls := w.calls ++ [Call.BuildConfigFromFlags "" (resolvedKubeconfig w.env)] })) := by
  have hbuilder : ∀ e, (selectedBuilder up w).err = some e →
      NewClient up logger w =
        (Outcome.ret (none, some e),
          { w with
            ext := (selectedBuilder up w).ext
            calls := w.calls ++ [(selectedBuilder up w).call] }) := by
    intro e he
    rw [NewClient_eq, if_pos (by simp [he]), he]
  refine ⟨?_, hbuilder, ?_, ?_⟩
  · rw [NewClient_eq]
    by_cases h1 : (selectedBuilder up w).err.isSome = true
    · exact ⟨none, (selectedBuilder up w).err, by simp [h1], by simp [h1], fun _ => rfl⟩
    · have h1n : (selectedBuilder up w).err = none := by simpa using h1
      by_cases h2 : (handleStep up w).1.2.isSome = true
      · exact ⟨none, (handleStep up w).1.2, by simp [h1, h2], by simp [h1n, h2], fun _ => rfl⟩
      · exact ⟨some w.heap.length, none, by simp [h1, h2], by simp [h1n, h2], by simp⟩
  · intro e hb he
    rw [NewClient_eq, if_neg (by simp [hb]), if_pos (by simp [he]), he]
  · intro e hm he
    have hv : envValue w.env "KUBERNETES_SERVICE_HOST" = "" := by simp [envValue, hm]
    have hs := hbuilder e (by simp [selectedBuilder, hv, he])
    simpa [selectedBuilder, hv] using hs

/-- A run of claim C3: nothing but `HOME` is set and there is no kubeconfig file, so
`NewClient` returns a nil pointer and the error of the configuration builder. -/
theorem NewClient_failure_witness :
    NewClient demoSubstitute (some "zap") (freshWorld (homeEnv "/home/u") bareMachine) =
      (Outcome.ret (none, some "no such file: /home/u/.kube/config"),
        { freshWorld (homeEnv "/home/u") bareMachine with
          calls := [Call.BuildConfigFromFlags "" "/home/u/.kube/config"] }) :=
  (NewClient_failure demoSubstitute (some "zap")
    (freshWorld (homeEnv "/home/u") bareMachine)).2.2.2
      "no such file: /home/u/.kube/config" rfl rfl

/-- Claim C4, as stated, fails: the marker variable is unset and the configuration builder
succeeds on the resolved path, yet the handle constructor refuses the configuration and
`NewClient` returns its error and a nil pointer. -/
theorem construction_success_counterexample :
    ¬ StatedConstructionSuccess demoSubstitute (some "zap")
      (freshWorld (homeEnv "/home/u") brokenMachine) := by
  intro h
  obtain ⟨a, c, h1, _⟩ := h (by decide) rfl
  have h2 : (NewClient demoSubstitute (some "zap")
      (freshWorld (homeEnv "/home/u") brokenMachine)).1 =
        Outcome.ret (none, some "host must be a URL or a host:port pair") := rfl
  rw [h2] at h1
  simp at h1

/-- Claim C4, amended: with the marker variable unset, the configuration builder succeeding
on the resolved path and the handle constructor succeeding on the configuration it gave,
`NewClient` returns a nil error and a pointer to a fresh `Client` whose connection handle is
the handle built from that configuration and whose logger is the one passed in. -/
theorem NewClient_success (logger : Option T.Logger) (w : World T σ)
    (hmarker : w.env "KUBERNETES_SERVICE_HOST" = none)
    (hconfig : (up.BuildConfigFromFlags "" (resolvedKubeconfig w.env) w.ext).1.2 = none)
    (hhandle : (up.NewForConfig (up.BuildConfigFromFlags "" (resolvedKubeconfig w.env) w.ext).1.1
      (up.BuildConfigFromFlags "" (resolvedKubeconfig w.env) w.ext).2).1.2 = none) :
    NewClient up logger w =
      (Outcome.ret (some w.heap.length, none),
        { w with
          heap := w.heap ++
            [{ logger := logger
               clientSet := (up.NewForConfig
                (up.BuildConfigFromFlags "" (resolvedKubeconfig w.env) w.ext).1.1
                (up.BuildConfigFromFlags "" (resolvedKubeconfig w.env) w.ext).2).1.1 }]
          ext := (up.NewForConfig
            (up.BuildConfigFromFlags "" (resolvedKubeconfig w.env) w.ext).1.1
            (up.BuildConfigFromFlags "" (resolvedKubeconfig w.env) w.ext).2).2
          calls := w.calls ++
            [Call.BuildConfigFromFlags "" (resolvedKubeconfig w.env),
              Call.NewForConfig
                (up.BuildConfigFromFlags "" (resolvedKubeconfig w.env) w.ext).1.1] }) ∧
    ∃ c, (NewClient up logger w).2.heap[w.heap.length]? = some c ∧ c.logger = logger ∧
      c.clientSet = (up.NewForConfig
        (up.BuildConfigFromFlags "" (resolvedKubeconfig w.env) w.ext).1.1
        (up.BuildConfigFromFlags "" (resolvedKubeconfig w.env) w.ext).2).1.1 := by
  have hv : envValue w.env "KUBERNETES_SERVICE_HOST" = "" := by simp [envValue, hmarker]
  have hs : NewClient up logger w = _ := NewClient_eq up logger w
  rw [if_neg (by simp [selectedBuilder, hv, hconfig]),
    if_neg (by simp [handleStep, selectedBuilder, hv, hhandle])] at hs
  simp only [handleStep, selectedBuilder, hv, if_true] at hs
  refine ⟨hs, ?_⟩
  rw [hs]
  refine ⟨{ logger := logger, clientSet := _ }, ?_, rfl, rfl⟩
  simp

/-- A run of claim C4 (amended): nothing but `HOME` is set, the kubeconfig file is there and
names a server, and `NewClient` returns the first `Client`, holding the handle and logger. -/
theorem NewClient_success_witness :
    NewClient demoSubstitute (some "zap") (freshWorld (homeEnv "/home/u") demoMachine) =
      (Outcome.ret (some 0, none),
        { freshWorld (homeEnv "/home/u") demoMachine with
          heap := [{ logger := some "zap", clientSet := some "https://10.0.0.1:6443" }]
          calls := [Call.BuildConfigFromFlags "" "/home/u/.kube/config",
            Call.NewForConfig (some "https://10.0.0.1:6443")] }) :=
  (NewClient_success demoSubstitute (some "zap")
    (freshWorld (homeEnv "/home/u") demoMachine) rfl rfl rfl).1

end Construction

/-! ## The three operations -/

section Operations

variable {T : ExternalTypes} {σ : Type} (up : Substitute T σ)

/-- Claim C5: on an adapter holding the handle `cs`, `GetPods` makes exactly one call, the
list call on the pods of the given namespace through `cs` with the given options, and
returns the pair (pod list, error) the substitute answered, whatever that pair is. -/
theorem GetPods_delegates (w : World T σ) (a : Nat) (cl : Client T) (cs : T.Clientset)
    (nspace : String) (options : T.ListOptions)
    (hc : w.heap[a]? = some cl) (hcs : cl.clientSet = some cs) :
    Client.GetPods up (some a) nspace options w =
      (Outcome.ret (up.PodsList cs nspace Context.Background options w.ext).1,
        { w with
          ext := (up.PodsList cs nspace Context.Background options w.ext).2
          calls := w.calls ++ [Call.PodsList cs nspace Context.Background options] }) := by
  simp [Client.GetPods, bind, Go.bind, Go.deref, hc, CoreV1, Go.load, hcs, Go.pure,
    PodInterface.List, Pods, Go.record, Go.ask]

/-- A run of claim C5: the pods of namespace `prod`, listed through the demo adapter. -/
theorem GetPods_delegates_witness :
    Client.GetPods demoSubstitute (some 0) "prod" "app=web" liveWorld =
      (Outcome.ret (some [{ ObjectMeta := { Name := "web-0", Namespace := "prod" } }], none),
        { liveWorld with
          calls := [Call.PodsList "https://10.0.0.1:6443" "prod" Context.Background "app=web"] }) :=
  GetPods_delegates demoSubstitute liveWorld 0
    { logger := some "zap", clientSet := some "https://10.0.0.1:6443" }
    "https://10.0.0.1:6443" "prod" "app=web" rfl rfl

/-- The whole of `DeletePod` on a non-nil pod and an adapter holding a handle. -/
theorem DeletePod_eq (w : World T σ) (a : Nat) (cl : Client T) (cs : T.Clientset)
    (pod : Pod) (hc : w.heap[a]? = some cl) (hcs : cl.clientSet = some cs) :
    Client.DeletePod up (some a) (some pod) w =
      (Outcome.ret (up.PodsDelete cs pod.ObjectMeta.Namespace Context.Background
          pod.ObjectMeta.Name T.emptyDeleteOptions w.ext).1,
        { w with
          ext := (up.PodsDelete cs pod.ObjectMeta.Namespace Context.Background
            pod.ObjectMeta.Name T.emptyDeleteOptions w.ext).2
          calls := w.calls ++
            [Call.PodsDelete cs pod.ObjectMeta.Namespace Context.Background
              pod.ObjectMeta.Name T.emptyDeleteOptions] }) := by
  simp [Client.DeletePod, bind, Go.bind, Go.deref, hc, CoreV1, Go.load, hcs, Go.pure,
    PodInterface.Delete, Pods, Go.record, Go.ask]

/-- Claim C6, as stated, fails: the claim speaks of every pod reference, and the parameter is
a pointer; on the nil pod the demo adapter makes no delete call and returns nothing, it
panics and leaves the world, its call log included, as it was. -/
theorem delete_delegation_counterexample :
    ¬ StatedDeleteDelegation demoSubstitute (some 0) "https://10.0.0.1:6443" none liveWorld ∧
    Client.DeletePod demoSubstitute (some 0) none liveWorld =
      (Outcome.panicked RuntimeError.nilDereference, liveWorld) := by
  have hrun : Client.DeletePod demoSubstitute (some 0) none liveWorld =
      (Outcome.panicked RuntimeError.nilDereference, liveWorld) := rfl
  refine ⟨?_, hrun⟩
  rintro ⟨ns, name, h, _⟩
  rw [hrun] at h
  have h1 := congrArg Prod.fst h
  simp at h1

/-- Claim C6, amended: on an adapter holding the handle `cs`, `DeletePod` of every non-nil
pod reference makes exactly one call, the delete call for the pod's name in the pod's
namespace through `cs` with the empty delete options, makes no other call, and returns what
the substitute answered: its error, or nil. -/
theorem DeletePod_delegates (w : World T σ) (a : Nat) (cl : Client T) (cs : T.Clientset)
    (pod : Pod) (hc : w.heap[a]? = some cl) (hcs : cl.clientSet = some cs) :
    Client.DeletePod up (some a) (some pod) w =
      (Outcome.ret (up.PodsDelete cs pod.ObjectMeta.Namespace Context.Background
          pod.ObjectMeta.Name T.emptyDeleteOptions w.ext).1,
        { w with
          ext := (up.PodsDelete cs pod.ObjectMeta.Namespace Context.Background
            pod.ObjectMeta.Name T.emptyDeleteOptions w.ext).2
          calls := w.calls ++
            [Call.PodsDelete cs pod.ObjectMeta.Namespace Context.Background
              pod.ObjectMeta.Name T.emptyDeleteOptions] }) :=
  DeletePod_eq up w a cl cs pod hc hcs

/-- A run of claim C6 (amended): deleting a pod the cluster does not have returns the error
of the substitute as it is, after the one delete call. -/
theorem DeletePod_delegates_witness :
    Client.DeletePod demoSubstitute (some 0)
        (some { ObjectMeta := { Name := "web-1", Namespace := "prod" } }) liveWorld =
      (Outcome.ret (some "pod not found: web-1"),
        { liveWorld with
          calls := [Call.PodsDelete "https://10.0.0.1:6443" "prod" Context.Background "web-1"
            none] }) :=
  DeletePod_delegates demoSubstitute liveWorld 0
    { logger := some "zap", clientSet := some "https://10.0.0.1:6443" }
    "https://10.0.0.1:6443" { ObjectMeta := { Name := "web-1", Namespace := "prod" } } rfl rfl

/-- Claim C7: on any adapter and for any namespace string, `NewSharedInformerFactory` returns
a factory on the adapter's own connection handle, scoped to that namespace, with resync
interval zero, together with a nil error, and touches nothing; and on no receiver at all does
it return an error. -/
theorem NewSharedInformerFactory_scoped (w : World T σ) (a : Nat) (cl : Client T) (ns : String)
    (hc : w.heap[a]? = some cl) :
    (∃ factory, Client.NewSharedInformerFactory (some a) ns w =
        (Outcome.ret (some factory, none), w) ∧
      factory.client = cl.clientSet ∧ factory.nspace = ns ∧ factory.defaultResync = 0) ∧
    ∀ (c : Option Nat) (v : World T σ) r,
      (Client.NewSharedInformerFactory c ns v).1 = Outcome.ret r → r.2 = none := by
  refine ⟨⟨NewSharedInformerFactoryWithOptions cl.clientSet 0 [WithNamespace ns], ?_,
    rfl, rfl, rfl⟩, ?_⟩
  · simp [Client.NewSharedInformerFactory, bind, Go.bind, Go.deref, hc, pure, Go.pure]
  · intro c v r hr
    cases c with
    | none => simp [Client.NewSharedInformerFactory, bind, Go.bind, Go.deref] at hr
    | some b =>
      cases hb : v.heap[b]? with
      | none => simp [Client.NewSharedInformerFactory, bind, Go.bind, Go.deref, hb] at hr
      | some d =>
        simp [Client.NewSharedInformerFactory, bind, Go.bind, Go.deref, hb, pure, Go.pure] at hr
        rw [← hr]

/-- A run of claim C7: a factory for the empty namespace string, from the demo adapter. -/
theorem NewSharedInformerFactory_scoped_witness :
    ∃ factory, Client.NewSharedInformerFactory (some 0) "" liveWorld =
        (Outcome.ret (some factory, none), liveWorld) ∧
      factory.client = some "https://10.0.0.1:6443" ∧ factory.nspace = "" ∧
      factory.defaultResync = 0 :=
  (NewSharedInformerFactory_scoped liveWorld 0
    { logger := some "zap", clientSet := some "https://10.0.0.1:6443" } "" rfl).1

/-- No call to the libraries touches the allocated structs or the environment. -/
theorem GetPods_frame (c : Option Nat) (nspace : String) (options : T.ListOptions)
    (w : World T σ) :
    (Client.GetPods up c nspace options w).2.heap = w.heap ∧
      (Client.GetPods up c nspace options w).2.env = w.env := by
  cases c with
  | none => simp [Client.GetPods, bind, Go.bind, Go.deref]
  | some a =>
    cases ha : w.heap[a]? with
    | none => simp [Client.GetPods, bind, Go.bind, Go.deref, ha]
    | some cl =>
      cases hcs : cl.clientSet with
      | none =>
        simp [Client.GetPods, bind, Go.bind, Go.deref, ha, CoreV1, Go.load, hcs, Go.throw]
      | some cs =>
        simp [Client.GetPods, bind, Go.bind, Go.deref, ha, CoreV1, Go.load, hcs, Go.pure,
          PodInterface.List, Pods, Go.record, Go.ask]

/-- Deleting a pod touches neither the allocated structs nor the environment. -/
theorem DeletePod_frame (c : Option Nat) (pod : Option Pod) (w : World T σ) :
    (Client.DeletePod up c pod w).2.heap = w.heap ∧
      (Client.DeletePod up c pod w).2.env = w.env := by
  cases c with
  | none => simp [Client.DeletePod, bind, Go.bind, Go.deref]
  | some a =>
    cases ha : w.heap[a]? with
    | none => simp [Client.DeletePod, bind, Go.bind, Go.deref, ha]
    | some cl =>
      cases hcs : cl.clientSet with
      | none =>
        simp [Client.DeletePod, bind, Go.bind, Go.deref, ha, CoreV1, Go.load, hcs, Go.throw]
      | some cs =>
        cases pod with
        | none =>
          simp [Client.DeletePod, bind, Go.bind, Go.deref, ha, CoreV1, Go.load, hcs, Go.pure,
            Go.throw]
        | some p =>
          simp [Client.DeletePod, bind, Go.bind, Go.deref, ha, CoreV1, Go.load, hcs, Go.pure,
            PodInterface.Delete, Pods, Go.record, Go.ask]

/-- Building a factory leaves the whole world as it was. -/
theorem NewSharedInformerFactory_frame (c : Option Nat) (ns : String) (w : World T σ) :
    (Client.NewSharedInformerFactory c ns w).2 = w := by
  cases c with
  | none => simp [Client.NewSharedInformerFactory, bind, Go.bind, Go.deref]
  | some a =>
    cases ha : w.heap[a]? with
    | none => simp [Client.NewSharedInformerFactory, bind, Go.bind, Go.deref, ha]
    | some cl =>
      simp [Client.NewSharedInformerFactory, bind, Go.bind, Go.deref, ha, pure, Go.pure]

/-- Any one of the three operations leaves the allocated structs and the environment alone. -/
theorem AdapterCall_frame (op : AdapterCall T) (w : World T σ) :
    (op.run up w).2.heap = w.heap ∧ (op.run up w).2.env = w.env := by
  cases op with
  | GetPods c nspace options =>
    have h := GetPods_frame up c nspace options w
    unfold AdapterCall.run
    simp only [bind, Go.bind, pure, Go.pure]
    split <;> simp_all
  | DeletePod c pod =>
    have h := DeletePod_frame up c pod w
    unfold AdapterCall.run
    simp only [bind, Go.bind, pure, Go.pure]
    split <;> simp_all
  | NewSharedInformerFactory c ns =>
    have h := NewSharedInformerFactory_frame c ns w
    unfold AdapterCall.run
    simp only [bind, Go.bind, pure, Go.pure]
    split <;> simp_all

/-- Any sequence of the three operations leaves the allocated structs and the environment
alone. -/
theorem runCalls_frame (prior : List (AdapterCall T)) (w : World T σ) :
    (runCalls up prior w).heap = w.heap ∧ (runCalls up prior w).env = w.env := by
  induction prior generalizing w with
  | nil => exact ⟨rfl, rfl⟩
  | cons op rest ih =>
    have h1 := ih (op.run up w).2
    have h2 := AdapterCall_frame up op w
    exact ⟨h1.1.trans h2.1, h1.2.trans h2.2⟩

/-- Claim C8: each of the three operations, on any receiver and any input, whether it
returns a value, returns an error or panics, leaves every allocated `Client` (both of its
fields) as it was; so does any sequence of them, and therefore a call made after such a
sequence comes to what the same call comes to on the adapter as it was at the start, in
front of the external state and log that the sequence left behind. -/
theorem adapter_state_frame :
    (∀ (c : Option Nat) (nspace : String) (options : T.ListOptions) (w : World T σ),
      (Client.GetPods up c nspace options w).2.heap = w.heap) ∧
    (∀ (c : Option Nat) (pod : Option Pod) (w : World T σ),
      (Client.DeletePod up c pod w).2.heap = w.heap) ∧
    (∀ (c : Option Nat) (ns : String) (w : World T σ),
      (Client.NewSharedInformerFactory c ns w).2.heap = w.heap) ∧
    (∀ (prior : List (AdapterCall T)) (w : World T σ), (runCalls up prior w).heap = w.heap) ∧
    (∀ (prior : List (AdapterCall T)) (op : AdapterCall T) (w : World T σ),
      op.run up (runCalls up prior w) =
        op.run up
          { w with ext := (runCalls up prior w).ext, calls := (runCalls up prior w).calls }) := by
  refine ⟨fun c n o w => (GetPods_frame up c n o w).1, fun c p w => (DeletePod_frame up c p w).1,
    fun c n w => by rw [NewSharedInformerFactory_frame], fun p w => (runCalls_frame up p w).1, ?_⟩
  intro prior op w
  have h := runCalls_frame up prior w
  congr 1
  cases hw : runCalls up prior w with
  | mk env heap ext calls =>
    rw [hw] at h
    simp only at h
    simp [h.1, h.2]

/-- Claim C10: `DeletePod` follows its pod argument unguarded.  With a nil pod it panics on
any receiver, leaving the world, and with it the call log, as it was: no delete call was made
and no error is returned.  With a non-nil pod on an adapter holding a handle it does not
panic: it returns, having made the delete call. -/
theorem DeletePod_pod_dereference :
    (∀ (c : Option Nat) (w : World T σ),
      Client.DeletePod up c none w = (Outcome.panicked RuntimeError.nilDereference, w)) ∧
    (∀ (w : World T σ) (a : Nat) (cl : Client T) (cs : T.Clientset) (pod : Pod),
      w.heap[a]? = some cl → cl.clientSet = some cs →
      ∃ err w1, Client.DeletePod up (some a) (some pod) w = (Outcome.ret err, w1) ∧
        w1.calls = w.calls ++
          [Call.PodsDelete cs pod.ObjectMeta.Namespace Context.Background pod.ObjectMeta.Name
            T.emptyDeleteOptions]) := by
  constructor
  · intro c w
    cases c with
    | none => simp [Client.DeletePod, bind, Go.bind, Go.deref]
    | some a =>
      cases ha : w.heap[a]? with
      | none => simp [Client.DeletePod, bind, Go.bind, Go.deref, ha]
      | some cl =>
        cases hcs : cl.clientSet with
        | none =>
          simp [Client.DeletePod, bind, Go.bind, Go.deref, ha, CoreV1, Go.load, hcs, Go.throw]
        | some cs =>
          simp [Client.DeletePod, bind, Go.bind, Go.deref, ha, CoreV1, Go.load, hcs, Go.pure,
            Go.throw]
  · intro w a cl cs pod hc hcs
    exact ⟨_, _, DeletePod_eq up w a cl cs pod hc hcs, rfl⟩

/-- A run of claim C10: a non-nil pod on the demo adapter reaches the delete call, and the
pod is gone from the cluster afterwards. -/
theorem DeletePod_pod_dereference_witness :
    ∃ err w1, Client.DeletePod demoSubstitute (some 0)
        (some { ObjectMeta := { Name := "web-0", Namespace := "prod" } }) liveWorld =
          (Outcome.ret err, w1) ∧
      w1.calls = liveWorld.calls ++
        [Call.PodsDelete "https://10.0.0.1:6443" "prod" Context.Background "web-0" none] :=
  (DeletePod_pod_dereference demoSubstitute).2 liveWorld 0
    { logger := some "zap", clientSet := some "https://10.0.0.1:6443" }
    "https://10.0.0.1:6443" { ObjectMeta := { Name := "web-0", Namespace := "prod" } } rfl rfl

end Operations

/-! ## Empty and unset variables -/

section EmptyVariables

variable {T : ExternalTypes} {σ : Type} (up : Substitute T σ)

/-- Setting a variable to the empty string and unsetting it read the same, at every key. -/
theorem envValue_setenv_empty (w : World T σ) (key k : String) :
    envValue (w.setenv key "").env k = envValue (w.unsetenv key).env k := by
  by_cases h : k = key
  · simp [envValue, World.setenv, World.unsetenv, h]
  · simp [envValue, World.setenv, World.unsetenv, Function.update_noteq h]

/-- The selected builder and its answer depend on the environment only through the strings
read from it. -/
theorem selectedBuilder_congr (w v : World T σ)
    (henv : ∀ k, envValue w.env k = envValue v.env k) (hext : w.ext = v.ext) :
    selectedBuilder up w = selectedBuilder up v := by
  unfold selectedBuilder resolvedKubeconfig
  rw [henv "KUBERNETES_SERVICE_HOST", henv "KUBECONFIG", henv "HOME", hext]

/-- Two worlds that read the same and differ in nothing else but their environment construct
the same adapter, with the same calls. -/
theorem NewClient_congr (logger : Option T.Logger) (w v : World T σ)
    (henv : ∀ k, envValue w.env k = envValue v.env k) (hext : w.ext = v.ext)
    (hheap : w.heap = v.heap) (hcalls : w.calls = v.calls) :
    (NewClient up logger w).1 = (NewClient up logger v).1 ∧
      (NewClient up logger w).2.heap = (NewClient up logger v).2.heap ∧
      (NewClient up logger w).2.ext = (NewClient up logger v).2.ext ∧
      (NewClient up logger w).2.calls = (NewClient up logger v).2.calls := by
  have hb := selectedBuilder_congr up w v henv hext
  have hh : handleStep up w = handleStep up v := by
    unfold handleStep
    rw [hb]
  rw [NewClient_eq, NewClient_eq, hb, hh, hheap, hcalls]
  split_ifs <;> exact ⟨rfl, rfl, rfl, rfl⟩

/-- Claim C9: construction sees a variable only through the string read from it.  For every
world and every variable, constructing after setting the variable to the empty string and
constructing after unsetting it return the same result, make the same calls and leave the
same external state and structs.  With `KUBERNETES_SERVICE_HOST` set to the empty string, as
with it unset, the kubeconfig builder is called on the resolved path; with `KUBECONFIG` set
to the empty string, as with it unset, the resolved path is the default one under `HOME`.
The in-cluster builder is the one called exactly when `KUBERNETES_SERVICE_HOST` has a
non-empty value. -/
theorem empty_variable_as_unset (logger : Option T.Logger) (w : World T σ) :
    (∀ key : String,
      (NewClient up logger (w.setenv key "")).1 = (NewClient up logger (w.unsetenv key)).1 ∧
      (NewClient up logger (w.setenv key "")).2.heap =
        (NewClient up logger (w.unsetenv key)).2.heap ∧
      (NewClient up logger (w.setenv key "")).2.ext =
        (NewClient up logger (w.unsetenv key)).2.ext ∧
      (NewClient up logger (w.setenv key "")).2.calls =
        (NewClient up logger (w.unsetenv key)).2.calls) ∧
    builderCalls up (w.setenv "KUBERNETES_SERVICE_HOST" "") =
      [Call.BuildConfigFromFlags "" (resolvedKubeconfig w.env)] ∧
    builderCalls up (w.unsetenv "KUBERNETES_SERVICE_HOST") =
      [Call.BuildConfigFromFlags "" (resolvedKubeconfig w.env)] ∧
    resolvedKubeconfig (w.setenv "KUBECONFIG" "").env =
      Join [envValue w.env "HOME", ".kube", "config"] ∧
    resolvedKubeconfig (w.unsetenv "KUBECONFIG").env =
      Join [envValue w.env "HOME", ".kube", "config"] ∧
    (builderCalls up w = [Call.InClusterConfig] ↔
      ∃ v, w.env "KUBERNETES_SERVICE_HOST" = some v ∧ v ≠ "") := by
  have hk : "KUBECONFIG" ≠ "KUBERNETES_SERVICE_HOST" := by decide
  have hh : "HOME" ≠ "KUBERNETES_SERVICE_HOST" := by decide
  have hhk : "HOME" ≠ "KUBECONFIG" := by decide
  refine ⟨fun key => NewClient_congr up logger _ _ (envValue_setenv_empty w key) rfl rfl rfl,
    ?_, ?_, ?_, ?_, ?_⟩
  · rw [builderCalls_eq]
    simp [selectedBuilder, resolvedKubeconfig, envValue, World.setenv,
      Function.update_noteq hk, Function.update_noteq hh]
  · rw [builderCalls_eq]
    simp [selectedBuilder, resolvedKubeconfig, envValue, World.unsetenv,
      Function.update_noteq hk, Function.update_noteq hh]
  · simp [resolvedKubeconfig, envValue, World.setenv, Function.update_noteq hhk]
  · simp [resolvedKubeconfig, envValue, World.unsetenv, Function.update_noteq hhk]
  · rw [builderCalls_eq]
    unfold selectedBuilder envValue
    cases hm : w.env "KUBERNETES_SERVICE_HOST" with
    | none => simp
    | some v =>
      by_cases hv : v = ""
      · simp [hv]
      · simp [hv]

end EmptyVariables

end PodWatcher
